import Mathlib

/-!
Verification of the midi1_ble_human_bpm core against its specification.

The definitions below are a shallow embedding of the C sources:
machine integers become `Nat`/`Int` with explicit reductions modulo `2^32`
(resp. `2^8`) where the C types wrap, hardware reads (`k_uptime_get_32`,
`counter_get_value`) become explicit parameters, and the callback tables of
the serial driver become a list of emitted events / bytes returned by each
operation.
-/

namespace Midi1

/-! ## Machine integer helpers -/

/-- Modulus of a 32-bit unsigned integer. -/
def U32 : Nat := 4294967296

/-- Reduce to a `uint32_t` value. -/
def u32 (x : Nat) : Nat := x % U32

/-- Unsigned 32-bit subtraction `a - b` (wraparound-safe, as in C). -/
def u32sub (a b : Nat) : Nat := (a % U32 + (U32 - b % U32)) % U32

/-- Wrap an integer to the range of a signed `int32_t` (two's complement). -/
def wrap32 (x : Int) : Int := (x + 2147483648) % 4294967296 - 2147483648

/-- Convert an integer to the `uint32_t` it becomes when stored (mod `2^32`). -/
def u32ofInt (x : Int) : Nat := (x % 4294967296).toNat

/-- A byte handed to `uart_poll_out` (the C `unsigned char` conversion). -/
def txByte (x : Nat) : Nat := x % 256

/-! ## Block averager (src/drivers/midi1_blockavg.c)

`struct midi1_blockavg` holds a 48-entry ring (`MIDI1_BLOCKAVG_SIZE`), a
`uint32_t` running sum, the write index used once full, and the fill count. -/

/-- Ring-buffer capacity `MIDI1_BLOCKAVG_SIZE`. -/
def MIDI1_BLOCKAVG_SIZE : Nat := 48

structure midi1_blockavg where
  buf : List Nat
  sum : Nat
  index : Nat
  count : Nat
deriving Repr, DecidableEq

/-- `midi1_blockavg_init`: zero the buffer, sum, index and count. -/
def midi1_blockavg_init : midi1_blockavg :=
  { buf := List.replicate MIDI1_BLOCKAVG_SIZE 0, sum := 0, index := 0, count := 0 }

/-- `midi1_blockavg_add`: while filling, append at `count`; once full,
overwrite the slot at `index` (subtracting the evicted sample from the
running `uint32_t` sum) and advance `index` with wraparound. -/
def midi1_blockavg_add (blkavg : midi1_blockavg) (sample : Nat) : midi1_blockavg :=
  if blkavg.count < MIDI1_BLOCKAVG_SIZE then
    { buf := blkavg.buf.set blkavg.count sample
      sum := u32 (blkavg.sum + sample)
      index := blkavg.index
      count := blkavg.count + 1 }
  else
    { buf := blkavg.buf.set blkavg.index sample
      sum := u32 (u32sub blkavg.sum (blkavg.buf.getD blkavg.index 0) + sample)
      index := if blkavg.index + 1 ≥ MIDI1_BLOCKAVG_SIZE then 0 else blkavg.index + 1
      count := blkavg.count }

/-- `midi1_blockavg_average`: truncating mean, 0 while empty. -/
def midi1_blockavg_average (blkavg : midi1_blockavg) : Nat :=
  if blkavg.count = 0 then 0 else blkavg.sum / blkavg.count

/-- `midi1_blockavg_count`. -/
def midi1_blockavg_count (blkavg : midi1_blockavg) : Nat := blkavg.count

/-! ## MIDI serial driver state (midi1_serial.h / midi1_serial.c)

Only the protocol state of `struct midi1_serial_data` is embedded; the
message queue and the callback table are the abstract byte source/sink of
the driver.  Callbacks fired by the receive side become `MidiEvent`s and
bytes written with `uart_poll_out` by the transmit side become a `List Nat`. -/

structure midi1_serial_data where
  running_status_rx : Nat
  third_byte_flag : Nat
  midi_c2 : Nat
  midi_c3 : Nat
  running_status_tx : Nat
  running_status_tx_count : Nat
  last_status_tx_time : Nat
  in_sysex : Bool
deriving Repr, DecidableEq

/-- Events delivered through the `midi1_serial_callbacks` table. -/
inductive MidiEvent where
  | note_on (channel key velocity : Nat)
  | note_off (channel key velocity : Nat)
  | control_change (channel controller value : Nat)
  | pitchwheel (channel lsb msb : Nat)
  | program_change (channel number : Nat)
  | channel_aftertouch (channel pressure : Nat)
  | poly_aftertouch (channel note pressure : Nat)
  | realtime (msg : Nat)
  | sysex_start
  | sysex_data (d : Nat)
  | sysex_stop
deriving Repr, DecidableEq

/-- Protocol constants from midi1.h. -/
def CHANNEL_VOICE_MASK : Nat := 0x80
def SYSTEM_REALTIME_MASK : Nat := 0xF8
def SYSTEM_COMMON_MASK : Nat := 0xF0
def SYSTEM_EXCLUSIVE_START : Nat := 0xF0
def SYSTEM_TUNE_REQUEST : Nat := 0xF6
def SYSTEM_EXCLUSIVE_END : Nat := 0xF7
def C_NOTE_ON : Nat := 0x90
def C_NOTE_OFF : Nat := 0x80
def C_POLYPHONIC_AFTERTOUCH : Nat := 0xA0
def C_CHANNEL_AFTERTOUCH : Nat := 0xD0
def C_PITCH_WHEEL : Nat := 0xE0
def C_CONTROL_CHANGE : Nat := 0xB0
def C_PROGRAM_CHANGE : Nat := 0xC0
def CTL_MSB_MODWHEEL : Nat := 0x01
def CTL_LSB_MODWHEEL : Nat := 0x21
def PITCHWHEEL_MAX : Nat := 16384

/-- RX-side state established by `midi1_serial_init`. -/
def midi1_serial_rx_init (data : midi1_serial_data) : midi1_serial_data :=
  { data with running_status_rx := 0, third_byte_flag := 0, midi_c2 := 0,
              midi_c3 := 0, in_sysex := false }

/-- TX-side state established by `midi1_serial_init` at uptime `now0`
(`last_status_tx_time` is set 500 ms in the past). -/
def midi1_serial_tx_init (data : midi1_serial_data) (now0 : Nat) : midi1_serial_data :=
  { data with running_status_tx := 0, running_status_tx_count := 0,
              last_status_tx_time := u32sub now0 500 }

/-- A freshly initialized driver instance (`midi1_serial_init` at uptime `now0`). -/
def midi1_serial_init (now0 : Nat) : midi1_serial_data :=
  midi1_serial_tx_init (midi1_serial_rx_init
    { running_status_rx := 0, third_byte_flag := 0, midi_c2 := 0, midi_c3 := 0,
      running_status_tx := 0, running_status_tx_count := 0,
      last_status_tx_time := 0, in_sysex := false }) now0

/-- `midi1_serial_receiveparser`, one byte `c` taken from the queue.
Returns the new state and the callbacks fired for this byte. -/
def midi1_serial_receiveparser (data : midi1_serial_data) (c : Nat) :
    midi1_serial_data × List MidiEvent :=
  if c &&& CHANNEL_VOICE_MASK ≠ 0 then
    if c ≥ SYSTEM_REALTIME_MASK then
      (data, [MidiEvent.realtime c])
    else
      let data := { data with in_sysex := false, running_status_rx := c,
                              third_byte_flag := 0 }
      if c = SYSTEM_TUNE_REQUEST then
        ({ data with midi_c2 := c }, [])
      else if c = SYSTEM_EXCLUSIVE_START then
        ({ data with in_sysex := true }, [MidiEvent.sysex_start])
      else if c = SYSTEM_EXCLUSIVE_END then
        ({ data with in_sysex := false }, [MidiEvent.sysex_stop])
      else
        (data, [])
  else
    if data.in_sysex then
      (data, [MidiEvent.sysex_data c])
    else if data.third_byte_flag = 1 then
      let data := { data with third_byte_flag := 0, midi_c3 := c }
      let common := data.running_status_rx &&& SYSTEM_COMMON_MASK
      let chan := data.running_status_rx &&& 0x0F
      if common = C_NOTE_ON then
        if data.midi_c3 = 0 then
          (data, [MidiEvent.note_off chan data.midi_c2 data.midi_c3])
        else
          (data, [MidiEvent.note_on chan data.midi_c2 data.midi_c3])
      else if common = C_NOTE_OFF then
        (data, [MidiEvent.note_off chan data.midi_c2 data.midi_c3])
      else if common = C_PITCH_WHEEL then
        (data, [MidiEvent.pitchwheel chan data.midi_c2 data.midi_c3])
      else if common = C_PROGRAM_CHANGE then
        (data, [MidiEvent.program_change chan data.midi_c2])
      else if common = C_POLYPHONIC_AFTERTOUCH then
        (data, [MidiEvent.poly_aftertouch chan data.midi_c2 data.midi_c3])
      else if common = C_CHANNEL_AFTERTOUCH then
        (data, [MidiEvent.channel_aftertouch chan data.midi_c2])
      else if common = C_CONTROL_CHANGE then
        (data, [MidiEvent.control_change chan data.midi_c2 data.midi_c3])
      else
        (data, [])
    else
      if data.running_status_rx = 0 then
        (data, [])
      else if data.running_status_rx < 0xC0 then
        ({ data with third_byte_flag := 1, midi_c2 := c }, [])
      else if data.running_status_rx < 0xE0 then
        ({ data with midi_c2 := c }, [])
      else if data.running_status_rx < 0xF0 then
        ({ data with third_byte_flag := 1, midi_c2 := c }, [])
      else
        if data.running_status_rx = 0xF2 then
          ({ data with running_status_rx := 0, third_byte_flag := 1, midi_c2 := c }, [])
        else if data.running_status_rx = 0xF3 then
          ({ data with running_status_rx := 0, midi_c2 := c }, [])
        else
          ({ data with running_status_rx := 0 }, [])

/-- Feed a list of bytes through the receive routine, collecting all events. -/
def midi1_serial_receive_run (data : midi1_serial_data) (cs : List Nat) :
    midi1_serial_data × List MidiEvent :=
  cs.foldl
    (fun acc c =>
      let r := midi1_serial_receiveparser acc.1 c
      (r.1, acc.2 ++ r.2))
    (data, [])

/-! ## MIDI transmit encoder (midi1_serial.c, running-status elision)

`tmout` and `times` stand for the Kconfig values
`CONFIG_MIDI1_SERIAL_RUNNING_STATUS_TIMEOUT_MS` (`RUNSTAT_TMOUT`) and
`CONFIG_MIDI1_SERIAL_RUNNING_STATUS_REPEAT` (`RUNSTAT_TIMES`); the uptime
read `k_uptime_get_32()` is the explicit parameter `now`. -/

/-- `midi1_need_status`: retransmit the status byte on timeout, on a status
change, or after too many data groups without a status byte. -/
def midi1_need_status (tmout times : Nat) (data : midi1_serial_data)
    (status : Nat) (now : Nat) : Bool :=
  decide (u32sub now data.last_status_tx_time > tmout) ||
  decide (status ≠ data.running_status_tx) ||
  decide (data.running_status_tx_count ≥ times)

/-- Shared tail of the channel-voice send operations: emit the status byte
if needed, then the data bytes, then bump the uint8 running-status counter. -/
def midi1_serial_send_channel_voice (tmout times : Nat) (data : midi1_serial_data)
    (now status : Nat) (payload : List Nat) : midi1_serial_data × List Nat :=
  let r :=
    if midi1_need_status tmout times data status now then
      ({ data with running_status_tx := status, running_status_tx_count := 0,
                   last_status_tx_time := now }, [status])
    else
      (data, [])
  ({ r.1 with running_status_tx_count := (r.1.running_status_tx_count + 1) % 256 },
   r.2 ++ payload)

/-- `midi1_serial_note_on`: mask the channel, silently drop out-of-range
key/velocity, else send `C_NOTE_ON | channel` under running status. -/
def midi1_serial_note_on (tmout times : Nat) (data : midi1_serial_data)
    (now channel key velocity : Nat) : midi1_serial_data × List Nat :=
  let channel := channel &&& 0x0F
  if key > 127 ∨ velocity > 127 then
    (data, [])
  else
    midi1_serial_send_channel_voice tmout times data now
      (C_NOTE_ON ||| channel) [key, velocity]

/-- `midi1_serial_note_off`. -/
def midi1_serial_note_off (tmout times : Nat) (data : midi1_serial_data)
    (now channel key velocity : Nat) : midi1_serial_data × List Nat :=
  let channel := channel &&& 0x0F
  if key > 127 ∨ velocity > 127 then
    (data, [])
  else
    midi1_serial_send_channel_voice tmout times data now
      (C_NOTE_OFF ||| channel) [key, velocity]

/-- `midi1_serial_control_change`. -/
def midi1_serial_control_change (tmout times : Nat) (data : midi1_serial_data)
    (now channel controller val : Nat) : midi1_serial_data × List Nat :=
  let channel := channel &&& 0x0F
  if controller > 127 ∨ val > 127 then
    (data, [])
  else
    midi1_serial_send_channel_voice tmout times data now
      (C_CONTROL_CHANGE ||| channel) [controller, val]

/-- `midi1_serial_channelaftertouch` (single data byte). -/
def midi1_serial_channelaftertouch (tmout times : Nat) (data : midi1_serial_data)
    (now channel val : Nat) : midi1_serial_data × List Nat :=
  let channel := channel &&& 0x0F
  if val > 127 then
    (data, [])
  else
    midi1_serial_send_channel_voice tmout times data now
      (C_CHANNEL_AFTERTOUCH ||| channel) [val]

/-- `midi1_serial_modwheel`: two control changes, the MSB controller first;
each argument is `~CHANNEL_VOICE_MASK & half`, converted to `uint8_t` at the
call. -/
def midi1_serial_modwheel (tmout times : Nat) (data : midi1_serial_data)
    (now channel val : Nat) : midi1_serial_data × List Nat :=
  let r1 := midi1_serial_control_change tmout times data now channel
    CTL_MSB_MODWHEEL (((val >>> 7) &&& 0xFFFFFF7F) % 256)
  let r2 := midi1_serial_control_change tmout times r1.1 now channel
    CTL_LSB_MODWHEEL ((val &&& 0xFFFFFF7F) % 256)
  (r2.1, r1.2 ++ r2.2)

/-- `midi1_serial_pitchwheel`: drop values above `PITCHWHEEL_MAX`, else send
LSB then MSB (`val & ~CHANNEL_VOICE_MASK`, truncated to a uart byte). -/
def midi1_serial_pitchwheel (tmout times : Nat) (data : midi1_serial_data)
    (now channel val : Nat) : midi1_serial_data × List Nat :=
  let channel := channel &&& 0x0F
  if val > PITCHWHEEL_MAX then
    (data, [])
  else
    midi1_serial_send_channel_voice tmout times data now
      (C_PITCH_WHEEL ||| channel)
      [txByte (val &&& 0xFFFFFF7F), txByte ((val >>> 7) &&& 0xFFFFFF7F)]

/-! ## Shared tempo model (src/src/model.c) -/

inductive bpm_led_status where
  | LED_UNDEF
  | LED_ON
  | LED_OFF
deriving Repr, DecidableEq

structure human_bpm_model where
  hr_connected : Bool
  hr_bpm : Nat
  meas_sbpm : Nat
  pll_sbpm : Nat
  last_update_ms : Nat
  bpm_led_status : bpm_led_status
  bpm_led_interval : Nat
deriving Repr, DecidableEq

/-- `model_set` at uptime `now` (`k_uptime_get_32()`): `hr_connected` is
assigned unconditionally, the four numeric fields only when non-zero, and
`last_update_ms` always. -/
def model_set (g : human_bpm_model) (hr_connected : Bool)
    (hr_bpm meas_sbpm pll_sbpm bpm_led_interval now : Nat) : human_bpm_model :=
  { g with
    hr_connected := hr_connected
    hr_bpm := if hr_bpm ≠ 0 then hr_bpm else g.hr_bpm
    meas_sbpm := if meas_sbpm ≠ 0 then meas_sbpm else g.meas_sbpm
    pll_sbpm := if pll_sbpm ≠ 0 then pll_sbpm else g.pll_sbpm
    bpm_led_interval := if bpm_led_interval ≠ 0 then bpm_led_interval
                        else g.bpm_led_interval
    last_update_ms := now }

/-! ## Tempo PLL (src/src/midi1_pll.h / midi1_pll.c) -/

def MIDI1_PLL_FILTER_K : Nat := 4
def MIDI1_PLL_GAIN_G : Nat := 4
def MIDI1_PLL_TRACK_GAIN : Nat := 32

structure midi1_pll_data where
  k : Nat
  gain : Nat
  tracking_g : Nat
  nominal_interval_ticks : Nat
  internal_interval_ticks : Int
  filtered_error : Int
  clock_freq : Nat
deriving Repr, DecidableEq

/-- `midi1_pll_init`: default gains when unset, fixed nominal interval. -/
def midi1_pll_init (data : midi1_pll_data) (sbpm clock_freq : Nat) : midi1_pll_data :=
  let _ := sbpm
  { data with
    k := if data.k = 0 then MIDI1_PLL_FILTER_K else data.k
    gain := if data.gain = 0 then MIDI1_PLL_GAIN_G else data.gain
    tracking_g := if data.tracking_g = 0 then MIDI1_PLL_TRACK_GAIN else data.tracking_g
    nominal_interval_ticks := 503000
    internal_interval_ticks := 503000
    filtered_error := 0
    clock_freq := clock_freq }

/-- `midi1_pll_process_interval`: reject 0; low-pass filter the interval
error, recenter the fast loop around the (pre-update) nominal interval, then
let the slow loop integrate a fraction of the filtered error.  All divisions
are C `int32_t` divisions (truncation toward zero, `Int.tdiv`). -/
def midi1_pll_process_interval (data : midi1_pll_data)
    (measured_interval_ticks : Nat) : midi1_pll_data :=
  if measured_interval_ticks = 0 then
    data
  else
    let error : Int :=
      wrap32 (wrap32 measured_interval_ticks - data.internal_interval_ticks)
    let filtered_error : Int :=
      wrap32 (data.filtered_error +
        Int.tdiv (wrap32 (error - data.filtered_error)) data.k)
    let internal_interval_ticks : Int :=
      wrap32 (wrap32 data.nominal_interval_ticks +
        Int.tdiv filtered_error data.gain)
    let nominal_interval_ticks : Nat :=
      u32ofInt (data.nominal_interval_ticks + Int.tdiv filtered_error data.tracking_g)
    { data with
      filtered_error := filtered_error
      internal_interval_ticks := internal_interval_ticks
      nominal_interval_ticks := nominal_interval_ticks }

/-- `midi1_pll_get_interval_ticks` (returns the nominal interval). -/
def midi1_pll_get_interval_ticks (data : midi1_pll_data) : Nat :=
  data.nominal_interval_ticks

/-- `midi1_pll_get_interval_us`: 64-bit conversion, 0 when uninitialized. -/
def midi1_pll_get_interval_us (data : midi1_pll_data) : Nat :=
  if data.clock_freq = 0 then 0
  else data.nominal_interval_ticks * 1000000 / data.clock_freq

/-! ## Clock pulse measurer (src/drivers/midi1_clock_meas_cntr.c)

The free-running hardware counter is abstracted: `counter_get_value` reads
become explicit `Nat` parameters. -/

/-- `MIDI1_SCALED_BPM_NUMERATOR = (60ull * US_PER_SECOND * BPM_SCALE) / 24`. -/
def MIDI1_SCALED_BPM_NUMERATOR : Nat := 60 * 1000000 * 100 / 24

/-- Modelled from the spec: Zephyr's `counter_ticks_to_us` (the counter API
helper used by the measurer, not part of this repository) converts a tick
count to microseconds using the counter clock frequency, with truncating
integer division. -/
def counter_ticks_to_us (ticks freq : Nat) : Nat := ticks * 1000000 / freq

structure midi1_clock_meas_cntr_data where
  last_ts_ticks : Nat
  scaled_bpm : Nat
  last_interval_ticks : Nat
  valid : Bool
  clock_freq : Nat
  count_up : Bool
  last_tick_timestamp_ticks : Nat
  blockavg : midi1_blockavg
deriving Repr, DecidableEq

/-- `midi1_clock_meas_cntr_init`: reset the state and the averager, fail when
the counter frequency reads 0, and finally seed `last_ts_ticks` with the
current counter value `t0`. -/
def midi1_clock_meas_cntr_init (t0 clock_freq : Nat) (count_up : Bool) :
    Option midi1_clock_meas_cntr_data :=
  if clock_freq = 0 then
    none
  else
    some { last_ts_ticks := t0, scaled_bpm := 12000, last_interval_ticks := 0,
           valid := false, clock_freq := clock_freq, count_up := count_up,
           last_tick_timestamp_ticks := 0, blockavg := midi1_blockavg_init }

/-- The elapsed-ticks computation of `midi1_clock_meas_cntr_pulse`
(direction depends on whether the counter counts up or down). -/
def midi1_clock_meas_interval (data : midi1_clock_meas_cntr_data)
    (now_ticks : Nat) : Nat :=
  if data.count_up then u32sub now_ticks data.last_ts_ticks
  else u32sub data.last_ts_ticks now_ticks

/-- `midi1_clock_meas_cntr_pulse` with the counter read `now_ticks`. -/
def midi1_clock_meas_cntr_pulse (data : midi1_clock_meas_cntr_data)
    (now_ticks : Nat) : midi1_clock_meas_cntr_data :=
  let data := { data with last_tick_timestamp_ticks := now_ticks }
  if data.last_ts_ticks = 0 then
    { data with last_ts_ticks := now_ticks }
  else
    let interval_ticks := midi1_clock_meas_interval data now_ticks
    let data := { data with last_ts_ticks := now_ticks }
    if interval_ticks = 0 then
      data
    else
      let data := { data with last_interval_ticks := interval_ticks }
      if counter_ticks_to_us data.last_interval_ticks data.clock_freq = 0 then
        data
      else
        let data := { data with blockavg := midi1_blockavg_add data.blockavg interval_ticks }
        if midi1_blockavg_count data.blockavg = MIDI1_BLOCKAVG_SIZE then
          let avg_ticks := midi1_blockavg_average data.blockavg
          let interval_us := counter_ticks_to_us avg_ticks data.clock_freq
          { data with scaled_bpm := u32 (MIDI1_SCALED_BPM_NUMERATOR / interval_us),
                      valid := true }
        else
          data

/-- The divisor of the scaled-BPM division in `midi1_clock_meas_cntr_pulse`,
when that division is reached for the given counter read (`none` when an
earlier guard returns first or the averager window is not yet full). -/
def midi1_clock_meas_pulse_divisor (data : midi1_clock_meas_cntr_data)
    (now_ticks : Nat) : Option Nat :=
  if data.last_ts_ticks = 0 then
    none
  else
    let interval_ticks := midi1_clock_meas_interval data now_ticks
    if interval_ticks = 0 then
      none
    else if counter_ticks_to_us interval_ticks data.clock_freq = 0 then
      none
    else
      let ba := midi1_blockavg_add data.blockavg interval_ticks
      if midi1_blockavg_count ba = MIDI1_BLOCKAVG_SIZE then
        some (counter_ticks_to_us (midi1_blockavg_average ba) data.clock_freq)
      else
        none

/-! ## General helper lemmas -/

/-- A data byte (value at most 127) has bit 7 clear. -/
lemma land_voice_mask_eq_zero {d : Nat} (hd : d ≤ 127) : d &&& 128 = 0 := by
  have h : (128 : Nat) = 2 ^ 7 := by norm_num
  rw [h, Nat.and_two_pow, Nat.testBit_lt_two_pow (by omega)]
  rfl

/-- Clearing bit 7 and then truncating to a byte keeps exactly the low 7 bits. -/
lemma land_mask_byte (x : Nat) : (x &&& 0xFFFFFF7F) % 256 = x &&& 0x7F := by
  have h : (256 : Nat) = 2 ^ 8 := by norm_num
  rw [h, ← Nat.and_pow_two_sub_one_eq_mod, Nat.and_assoc]
  congr 1

/-! ## Claim C8 -/

/-- Claim C8: from a freshly initialized driver, the bytes 0x90 0x40 0x7F
deliver exactly one `note_on` with channel 0, key 0x40, velocity 0x7F; the
running-status continuation 0x50 0x00 then delivers exactly one `note_off`
with channel 0, key 0x50, velocity 0 (zero-velocity note-on convention). -/
theorem c8_note_on_running_status :
    (midi1_serial_receive_run (midi1_serial_init 1000) [0x90, 0x40, 0x7F]).2
      = [MidiEvent.note_on 0 0x40 0x7F] ∧
    (midi1_serial_receive_run
        (midi1_serial_receive_run (midi1_serial_init 1000) [0x90, 0x40, 0x7F]).1
        [0x50, 0x00]).2
      = [MidiEvent.note_off 0 0x50 0] := by
  constructor <;> rfl

/-! ## Claim C1 -/

/-- Claim C1 (failing input): with Program Change running status 0xC0
established, the data byte 0x05 is only buffered into `midi_c2` and no
handler is invoked (the source returns at a TODO instead of firing the
`program_change` callback); likewise for Channel Aftertouch status 0xD3
followed by 0x40.  The claim states the single-argument handler is invoked
exactly once. -/
theorem c1_one_data_byte_no_handler :
    (midi1_serial_receive_run (midi1_serial_init 1000) [0xC0, 0x05]).2 = [] ∧
    (midi1_serial_receive_run (midi1_serial_init 1000) [0xC0, 0x05]).1.midi_c2 = 0x05 ∧
    (midi1_serial_receive_run (midi1_serial_init 1000) [0xD3, 0x40]).2 = [] ∧
    (midi1_serial_receive_run (midi1_serial_init 1000) [0xD3, 0x40]).1.midi_c2 = 0x40 := by
  refine ⟨rfl, rfl, rfl, rfl⟩

/-! ## Claim C4 -/

/-- Claim C4 (counterexample): feeding the unsupported system-common byte
0xF1 leaves running status equal to 0xF1 (not 0, as claimed); feeding 0xF9,
which is not a defined system-realtime message, nevertheless invokes the
realtime handler (the claim says no handler is invoked). -/
theorem c4_counterexample :
    (midi1_serial_receiveparser (midi1_serial_init 1000) 0xF1).1.running_status_rx = 0xF1 ∧
    ((midi1_serial_receiveparser (midi1_serial_init 1000) 0xF1).1.running_status_rx ≠ 0) ∧
    (midi1_serial_receiveparser (midi1_serial_init 1000) 0xF1).2 = [] ∧
    (midi1_serial_receiveparser (midi1_serial_init 1000) 0xF9).2
      = [MidiEvent.realtime 0xF9] := by
  refine ⟨rfl, by decide, rfl, rfl⟩

/-- Claim C4 (amended): an unsupported system-common status byte
(0xF1-0xF5) emits nothing and **sets** running status to that byte; running
status is reset to 0 only when the next data byte arrives (again emitting
nothing).  Every byte at or above 0xF8 - defined realtime message or not -
invokes the realtime handler and leaves the state untouched. -/
theorem c4_unsupported_status_amended :
    (∀ (st : midi1_serial_data) (s : Nat), 0xF1 ≤ s → s ≤ 0xF5 →
      (midi1_serial_receiveparser st s).2 = [] ∧
      (midi1_serial_receiveparser st s).1.running_status_rx = s ∧
      ∀ d : Nat, d ≤ 127 →
        (midi1_serial_receiveparser (midi1_serial_receiveparser st s).1 d).2 = [] ∧
        (midi1_serial_receiveparser
          (midi1_serial_receiveparser st s).1 d).1.running_status_rx = 0) ∧
    (∀ (st : midi1_serial_data) (s : Nat), 0xF8 ≤ s → s ≤ 0xFF →
      midi1_serial_receiveparser st s = (st, [MidiEvent.realtime s])) := by
  constructor
  · intro st s hs1 hs2
    interval_cases s <;>
      refine ⟨rfl, rfl, fun d hd => ?_⟩ <;>
      simp [midi1_serial_receiveparser, CHANNEL_VOICE_MASK, SYSTEM_REALTIME_MASK,
        SYSTEM_TUNE_REQUEST, SYSTEM_EXCLUSIVE_START, SYSTEM_EXCLUSIVE_END,
        land_voice_mask_eq_zero hd]
  · intro st s hs1 hs2
    interval_cases s <;> rfl

/-- Witness for `c4_unsupported_status_amended` at concrete inputs. -/
theorem c4_witness :
    ((0xF1 : Nat) ≤ 0xF2 ∧ (0xF2 : Nat) ≤ 0xF5 ∧ (0 : Nat) ≤ 127 ∧
      (midi1_serial_receiveparser (midi1_serial_init 1000) 0xF2).2 = [] ∧
      (midi1_serial_receiveparser (midi1_serial_init 1000) 0xF2).1.running_status_rx = 0xF2 ∧
      (midi1_serial_receiveparser
        (midi1_serial_receiveparser (midi1_serial_init 1000) 0xF2).1 0).2 = [] ∧
      (midi1_serial_receiveparser
        (midi1_serial_receiveparser (midi1_serial_init 1000) 0xF2).1 0).1.running_status_rx = 0) ∧
    ((0xF8 : Nat) ≤ 0xFD ∧ (0xFD : Nat) ≤ 0xFF ∧
      midi1_serial_receiveparser (midi1_serial_init 1000) 0xFD
        = (midi1_serial_init 1000, [MidiEvent.realtime 0xFD])) := by
  have h1 := (c4_unsupported_status_amended.1 (midi1_serial_init 1000) 0xF2
    (by decide) (by decide))
  have h2 := h1.2.2 0 (by decide)
  have h3 := c4_unsupported_status_amended.2 (midi1_serial_init 1000) 0xFD
    (by decide) (by decide)
  exact ⟨⟨by decide, by decide, by decide, h1.1, h1.2.1, h2.1, h2.2⟩,
         ⟨by decide, by decide, h3⟩⟩

/-! ## Claim C2 -/

/-- Claim C2 (counterexample): a `model_set` call with `hr_connected = false`
overwrites a previously stored `true` - the `hr_connected` field is NOT
protected by the non-zero update policy the claim ascribes to all five
fields (the other four arguments being zero indeed leave their fields). -/
theorem c2_counterexample :
    (model_set
      { hr_connected := true, hr_bpm := 70, meas_sbpm := 12000, pll_sbpm := 12000,
        last_update_ms := 0, bpm_led_status := bpm_led_status.LED_UNDEF,
        bpm_led_interval := 5 }
      false 0 0 0 0 99).hr_connected = false := by
  rfl

/-- Claim C2 (amended): for the four numeric fields (`hr_bpm`, `meas_sbpm`,
`pll_sbpm`, `bpm_led_interval`) a zero argument leaves the stored value and
a non-zero argument overwrites it; `hr_connected`, however, is overwritten
unconditionally on every call; `last_update_ms` is always refreshed and
`bpm_led_status` is never touched by `model_set`. -/
theorem c2_model_set_fields (g : human_bpm_model) (hc : Bool)
    (hb ms ps bi now : Nat) :
    (model_set g hc hb ms ps bi now).hr_connected = hc ∧
    (hb = 0 → (model_set g hc hb ms ps bi now).hr_bpm = g.hr_bpm) ∧
    (hb ≠ 0 → (model_set g hc hb ms ps bi now).hr_bpm = hb) ∧
    (ms = 0 → (model_set g hc hb ms ps bi now).meas_sbpm = g.meas_sbpm) ∧
    (ms ≠ 0 → (model_set g hc hb ms ps bi now).meas_sbpm = ms) ∧
    (ps = 0 → (model_set g hc hb ms ps bi now).pll_sbpm = g.pll_sbpm) ∧
    (ps ≠ 0 → (model_set g hc hb ms ps bi now).pll_sbpm = ps) ∧
    (bi = 0 → (model_set g hc hb ms ps bi now).bpm_led_interval = g.bpm_led_interval) ∧
    (bi ≠ 0 → (model_set g hc hb ms ps bi now).bpm_led_interval = bi) ∧
    (model_set g hc hb ms ps bi now).last_update_ms = now ∧
    (model_set g hc hb ms ps bi now).bpm_led_status = g.bpm_led_status := by
  refine ⟨rfl, ?_, ?_, ?_, ?_, ?_, ?_, ?_, ?_, rfl, rfl⟩ <;>
    intro h <;> simp [model_set, h]

/-- Witness for `c2_model_set_fields` at a concrete model and arguments. -/
theorem c2_witness :
    ((0 : Nat) = 0 →
      (model_set
        { hr_connected := true, hr_bpm := 70, meas_sbpm := 12000, pll_sbpm := 11000,
          last_update_ms := 0, bpm_led_status := bpm_led_status.LED_UNDEF,
          bpm_led_interval := 5 } false 0 9000 0 0 42).hr_bpm = 70) ∧
    ((9000 : Nat) ≠ 0 →
      (model_set
        { hr_connected := true, hr_bpm := 70, meas_sbpm := 12000, pll_sbpm := 11000,
          last_update_ms := 0, bpm_led_status := bpm_led_status.LED_UNDEF,
          bpm_led_interval := 5 } false 0 9000 0 0 42).meas_sbpm = 9000) := by
  have h := c2_model_set_fields
    { hr_connected := true, hr_bpm := 70, meas_sbpm := 12000, pll_sbpm := 11000,
      last_update_ms := 0, bpm_led_status := bpm_led_status.LED_UNDEF,
      bpm_led_interval := 5 } false 0 9000 0 0 42
  exact ⟨fun _ => h.2.1 rfl, fun _ => h.2.2.2.2.1 (by decide)⟩

/-! ## Claim C3 -/

/-- Claim C3 (counterexample): after one PLL update from the initial state
with measured interval 504000, `internal_interval_ticks = 503062` but
`nominal_interval_ticks + filtered_error/gain = 503007 + 62 = 503069`:
the claimed invariant fails for post-update values because the slow loop
moves `nominal_interval_ticks` *after* the fast loop has been recentered. -/
theorem c3_counterexample :
    ¬ ((midi1_pll_process_interval
          (midi1_pll_init
            { k := 0, gain := 0, tracking_g := 0, nominal_interval_ticks := 0,
              internal_interval_ticks := 0, filtered_error := 0, clock_freq := 0 }
            12000 1000000) 504000).internal_interval_ticks
        = ((midi1_pll_process_interval
              (midi1_pll_init
                { k := 0, gain := 0, tracking_g := 0, nominal_interval_ticks := 0,
                  internal_interval_ticks := 0, filtered_error := 0, clock_freq := 0 }
                12000 1000000) 504000).nominal_interval_ticks : Int)
          + Int.tdiv
              (midi1_pll_process_interval
                (midi1_pll_init
                  { k := 0, gain := 0, tracking_g := 0, nominal_interval_ticks := 0,
                    internal_interval_ticks := 0, filtered_error := 0, clock_freq := 0 }
                  12000 1000000) 504000).filtered_error
              ((midi1_pll_process_interval
                (midi1_pll_init
                  { k := 0, gain := 0, tracking_g := 0, nominal_interval_ticks := 0,
                    internal_interval_ticks := 0, filtered_error := 0, clock_freq := 0 }
                  12000 1000000) 504000).gain : Int)) := by
  decide

/-- Claim C3 (amended): after every update with a non-zero measured
interval, `internal_interval_ticks` equals the **pre-update** nominal
interval plus `filtered_error/gain` (truncating division, with the C
`int32`/`uint32` wraps), and the post-update nominal interval equals the
pre-update nominal interval plus `filtered_error/tracking_g`; the claimed
relation with the post-update nominal interval is off by exactly that
slow-loop increment. -/
theorem c3_pll_invariant_amended (st : midi1_pll_data) (m : Nat) (hm : m ≠ 0) :
    (midi1_pll_process_interval st m).internal_interval_ticks
      = wrap32 (wrap32 st.nominal_interval_ticks +
          Int.tdiv (midi1_pll_process_interval st m).filtered_error st.gain) ∧
    (midi1_pll_process_interval st m).nominal_interval_ticks
      = u32ofInt (st.nominal_interval_ticks +
          Int.tdiv (midi1_pll_process_interval st m).filtered_error st.tracking_g) := by
  simp [midi1_pll_process_interval, hm]

/-- Witness for `c3_pll_invariant_amended` at the initial PLL state and a
measured interval of 504000 ticks. -/
theorem c3_witness :
    ((504000 : Nat) ≠ 0) ∧
    ((midi1_pll_process_interval
        (midi1_pll_init
          { k := 0, gain := 0, tracking_g := 0, nominal_interval_ticks := 0,
            internal_interval_ticks := 0, filtered_error := 0, clock_freq := 0 }
          12000 1000000) 504000).internal_interval_ticks
      = wrap32 (wrap32 (midi1_pll_init
          { k := 0, gain := 0, tracking_g := 0, nominal_interval_ticks := 0,
            internal_interval_ticks := 0, filtered_error := 0, clock_freq := 0 }
          12000 1000000).nominal_interval_ticks +
          Int.tdiv (midi1_pll_process_interval
            (midi1_pll_init
              { k := 0, gain := 0, tracking_g := 0, nominal_interval_ticks := 0,
                internal_interval_ticks := 0, filtered_error := 0, clock_freq := 0 }
              12000 1000000) 504000).filtered_error
            (midi1_pll_init
              { k := 0, gain := 0, tracking_g := 0, nominal_interval_ticks := 0,
                internal_interval_ticks := 0, filtered_error := 0, clock_freq := 0 }
              12000 1000000).gain)) := by
  exact ⟨by decide,
    (c3_pll_invariant_amended
      (midi1_pll_init
        { k := 0, gain := 0, tracking_g := 0, nominal_interval_ticks := 0,
          internal_interval_ticks := 0, filtered_error := 0, clock_freq := 0 }
        12000 1000000) 504000 (by decide)).1⟩

/-! ## Claim C5 -/

/-- Claim C5 (failing input): `midi1_clock_meas_cntr_init` with a counter
reading 1000 seeds `last_ts_ticks = 1000`, so the very first
`midi1_clock_meas_cntr_pulse` (counter reading 400, down-counter) does NOT
take the record-only branch: it computes the interval 600, stores it, and
adds a sample to the block averager (count becomes 1), contrary to the
claim that the first pulse only records the timestamp. -/
theorem c5_first_pulse_measures :
    (midi1_clock_meas_cntr_init 1000 1000000 false).map
        (fun d => ((midi1_clock_meas_cntr_pulse d 400).blockavg.count,
                   (midi1_clock_meas_cntr_pulse d 400).last_interval_ticks,
                   (midi1_clock_meas_cntr_pulse d 400).last_ts_ticks))
      = some (1, 600, 400) := by
  rfl

/-! ## Claim C6 -/

/-- Claim C6 (counterexample): `midi1_serial_pitchwheel` with value 16384 -
which exceeds 16383 - emits three bytes instead of none (the guard is
`val > PITCHWHEEL_MAX` with `PITCHWHEEL_MAX = 16384`); and
`midi1_serial_modwheel` emits the MSB half (controller 0x01, value
300 >> 7 = 2) before the LSB half (controller 0x21, value 300 & 127 = 44),
not LSB first as claimed. -/
theorem c6_counterexample :
    (midi1_serial_pitchwheel 300 16 (midi1_serial_init 1000) 1000 0 16384).2
      = [0xE0, 0, 0] ∧
    (16384 : Nat) > 16383 ∧
    (midi1_serial_modwheel 300 16 (midi1_serial_init 1000) 1000 0 300).2
      = [0xB0, 0x01, 2, 0x21, 44] := by
  refine ⟨rfl, by decide, rfl⟩

/-- Claim C6 (amended): every transmit operation masks the channel to its
low 4 bits; a 7-bit data argument above 127 drops the message with no bytes
and no state change; `pitchwheel` drops only values above 16384 (16384
itself is accepted) and emits its two 7-bit halves LSB first; `modwheel`
performs no 14-bit range check at all - it truncates each half to 7 bits
and always emits, as two control-change messages with the MSB half first
and the LSB half second. -/
theorem c6_transmit_amended :
    (∀ tmout times st now ch key vel, key ≤ 127 → vel ≤ 127 →
      (midi1_serial_note_on tmout times st now ch key vel).2
        = (if midi1_need_status tmout times st (C_NOTE_ON ||| (ch &&& 0x0F)) now
           then [C_NOTE_ON ||| (ch &&& 0x0F)] else []) ++ [key, vel]) ∧
    (∀ tmout times st now ch key vel, 127 < key ∨ 127 < vel →
      midi1_serial_note_on tmout times st now ch key vel = (st, [])) ∧
    (∀ tmout times st now ch val, PITCHWHEEL_MAX < val →
      midi1_serial_pitchwheel tmout times st now ch val = (st, [])) ∧
    (∀ tmout times st now ch val, val ≤ PITCHWHEEL_MAX →
      (midi1_serial_pitchwheel tmout times st now ch val).2
        = (if midi1_need_status tmout times st (C_PITCH_WHEEL ||| (ch &&& 0x0F)) now
           then [C_PITCH_WHEEL ||| (ch &&& 0x0F)] else []) ++
          [val &&& 0x7F, (val >>> 7) &&& 0x7F]) ∧
    (∀ tmout times st now ch ctl v, ctl ≤ 127 → v ≤ 127 →
      (midi1_serial_control_change tmout times st now ch ctl v).2
        = (if midi1_need_status tmout times st (C_CONTROL_CHANGE ||| (ch &&& 0x0F)) now
           then [C_CONTROL_CHANGE ||| (ch &&& 0x0F)] else []) ++ [ctl, v]) ∧
    (∀ tmout times st now ch val,
      (midi1_serial_modwheel tmout times st now ch val).2
        = (midi1_serial_control_change tmout times st now ch CTL_MSB_MODWHEEL
            ((val >>> 7) &&& 0x7F)).2 ++
          (midi1_serial_control_change tmout times
            (midi1_serial_control_change tmout times st now ch CTL_MSB_MODWHEEL
              ((val >>> 7) &&& 0x7F)).1 now ch CTL_LSB_MODWHEEL (val &&& 0x7F)).2 ∧
      4 ≤ (midi1_serial_modwheel tmout times st now ch val).2.length) := by
  have hcc : ∀ tmout times st now ch ctl v, ctl ≤ 127 → v ≤ 127 →
      (midi1_serial_control_change tmout times st now ch ctl v).2
        = (if midi1_need_status tmout times st (C_CONTROL_CHANGE ||| (ch &&& 0x0F)) now
           then [C_CONTROL_CHANGE ||| (ch &&& 0x0F)] else []) ++ [ctl, v] := by
    intro tmout times st now ch ctl v hc hv
    have h : ¬ (ctl > 127 ∨ v > 127) := by omega
    cases hns : midi1_need_status tmout times st (C_CONTROL_CHANGE ||| (ch &&& 0x0F)) now <;>
      simp [midi1_serial_control_change, midi1_serial_send_channel_voice, h, hns]
  refine ⟨?_, ?_, ?_, ?_, hcc, ?_⟩
  · intro tmout times st now ch key vel hk hv
    have h : ¬ (key > 127 ∨ vel > 127) := by omega
    cases hns : midi1_need_status tmout times st (C_NOTE_ON ||| (ch &&& 0x0F)) now <;>
      simp [midi1_serial_note_on, midi1_serial_send_channel_voice, h, hns]
  · intro tmout times st now ch key vel hkv
    have h : key > 127 ∨ vel > 127 := by omega
    simp [midi1_serial_note_on, h]
  · intro tmout times st now ch val hv
    have h : val > PITCHWHEEL_MAX := hv
    simp [midi1_serial_pitchwheel, h]
  · intro tmout times st now ch val hv
    have h : ¬ (val > PITCHWHEEL_MAX) := Nat.not_lt.mpr hv
    cases hns : midi1_need_status tmout times st (C_PITCH_WHEEL ||| (ch &&& 0x0F)) now <;>
      simp [midi1_serial_pitchwheel, midi1_serial_send_channel_voice, h, hns,
        txByte, land_mask_byte]
  · intro tmout times st now ch val
    have hmsb : (val >>> 7) &&& 0x7F ≤ 127 := Nat.and_le_right
    have hlsb : val &&& 0x7F ≤ 127 := Nat.and_le_right
    constructor
    · simp [midi1_serial_modwheel, land_mask_byte]
    · have e1 := hcc tmout times st now ch CTL_MSB_MODWHEEL ((val >>> 7) &&& 0x7F)
        (by norm_num [CTL_MSB_MODWHEEL]) hmsb
      have e2 := hcc tmout times
        (midi1_serial_control_change tmout times st now ch CTL_MSB_MODWHEEL
          ((val >>> 7) &&& 0x7F)).1 now ch CTL_LSB_MODWHEEL (val &&& 0x7F)
        (by norm_num [CTL_LSB_MODWHEEL]) hlsb
      have hsplit : (midi1_serial_modwheel tmout times st now ch val).2
          = (midi1_serial_control_change tmout times st now ch CTL_MSB_MODWHEEL
              ((val >>> 7) &&& 0x7F)).2 ++
            (midi1_serial_control_change tmout times
              (midi1_serial_control_change tmout times st now ch CTL_MSB_MODWHEEL
                ((val >>> 7) &&& 0x7F)).1 now ch CTL_LSB_MODWHEEL (val &&& 0x7F)).2 := by
        simp [midi1_serial_modwheel, land_mask_byte]
      rw [hsplit, e1, e2]
      simp
      split <;> split <;> simp

/-- Witness for `c6_transmit_amended` at concrete arguments for each
hypothesis-bearing conjunct. -/
theorem c6_witness :
    ((60 : Nat) ≤ 127 ∧ (100 : Nat) ≤ 127 ∧
      (midi1_serial_note_on 300 16 (midi1_serial_init 1000) 1000 0 60 100).2
        = (if midi1_need_status 300 16 (midi1_serial_init 1000) (C_NOTE_ON ||| 0) 1000
           then [C_NOTE_ON ||| 0] else []) ++ [60, 100]) ∧
    ((127 : Nat) < 200 ∧
      midi1_serial_note_on 300 16 (midi1_serial_init 1000) 1000 0 200 100
        = (midi1_serial_init 1000, [])) ∧
    (PITCHWHEEL_MAX < 20000 ∧
      midi1_serial_pitchwheel 300 16 (midi1_serial_init 1000) 1000 0 20000
        = (midi1_serial_init 1000, [])) ∧
    ((16384 : Nat) ≤ PITCHWHEEL_MAX ∧
      (midi1_serial_pitchwheel 300 16 (midi1_serial_init 1000) 1000 0 16384).2
        = (if midi1_need_status 300 16 (midi1_serial_init 1000) (C_PITCH_WHEEL ||| 0) 1000
           then [C_PITCH_WHEEL ||| 0] else []) ++
          [16384 &&& 0x7F, (16384 >>> 7) &&& 0x7F]) ∧
    ((7 : Nat) ≤ 127 ∧ (99 : Nat) ≤ 127 ∧
      (midi1_serial_control_change 300 16 (midi1_serial_init 1000) 1000 2 7 99).2
        = (if midi1_need_status 300 16 (midi1_serial_init 1000)
             (C_CONTROL_CHANGE ||| (2 &&& 0x0F)) 1000
           then [C_CONTROL_CHANGE ||| (2 &&& 0x0F)] else []) ++ [7, 99]) := by
  refine ⟨⟨by decide, by decide, ?_⟩, ⟨by decide, ?_⟩, ⟨by decide, ?_⟩,
          ⟨by decide, ?_⟩, ⟨by decide, by decide, ?_⟩⟩
  · exact c6_transmit_amended.1 300 16 (midi1_serial_init 1000) 1000 0 60 100
      (by decide) (by decide)
  · exact c6_transmit_amended.2.1 300 16 (midi1_serial_init 1000) 1000 0 200 100
      (Or.inl (by decide))
  · exact c6_transmit_amended.2.2.1 300 16 (midi1_serial_init 1000) 1000 0 20000
      (by decide)
  · exact c6_transmit_amended.2.2.2.1 300 16 (midi1_serial_init 1000) 1000 0 16384
      (by decide)
  · exact c6_transmit_amended.2.2.2.2.1 300 16 (midi1_serial_init 1000) 1000 2 7 99
      (by decide) (by decide)

/-! ## Claim C7 -/

/-- Claim C7 (counterexample): a `midi1_serial_note_on` call whose key is
out of range (128) emits nothing and leaves even the messages-since-status
counter untouched, although the retransmission conditions hold (the
requested status differs from the last transmitted status and the timeout
has expired) - so taken over *every* transmit call the claimed
"exactly when"/"every call increments" does not hold. -/
theorem c7_counterexample :
    midi1_serial_note_on 300 16 (midi1_serial_init 1000) 1000 0 128 100
      = (midi1_serial_init 1000, []) ∧
    midi1_need_status 300 16 (midi1_serial_init 1000) (C_NOTE_ON ||| 0) 1000 = true ∧
    (midi1_serial_init 1000).running_status_tx_count = 0 := by
  refine ⟨rfl, rfl, rfl⟩

/-- Run of 17 identical `midi1_serial_note_on` calls (timeout 300 ms, run
length 16, all at uptime 1000 from an instance initialized at uptime 1000);
each entry records whether that call emitted the status byte (3 bytes
instead of 2). -/
def c7_note_on_status_flags : List Bool :=
  ((List.range 17).foldl
    (fun (acc : midi1_serial_data × List Bool) _ =>
      let r := midi1_serial_note_on 300 16 acc.1 1000 0 60 100
      (r.1, acc.2 ++ [decide (r.2.length = 3)]))
    (midi1_serial_init 1000, [])).2

/-- Claim C7 (amended, restricted to calls whose data bytes pass the range
validation): the status byte is emitted before the data bytes exactly when
`midi1_need_status` holds, i.e. when the uint32 time since the last status
transmission exceeds the configured timeout, or the requested status
differs from the last transmitted one, or the messages-since-status counter
has reached the configured run length; when status is sent the counter is
reset (ending the call at 1) and the timeout clock restarts, otherwise the
uint8 counter is incremented; 17 identical in-range `note_on` calls within
the timeout emit status exactly on the 1st and the 17th call. -/
theorem c7_running_status_elision :
    (∀ tmout times st now ch key vel, key ≤ 127 → vel ≤ 127 →
      (midi1_need_status tmout times st (C_NOTE_ON ||| (ch &&& 0x0F)) now = true →
        midi1_serial_note_on tmout times st now ch key vel
          = ({ st with running_status_tx := C_NOTE_ON ||| (ch &&& 0x0F),
                       running_status_tx_count := 1,
                       last_status_tx_time := now },
             [C_NOTE_ON ||| (ch &&& 0x0F), key, vel])) ∧
      (midi1_need_status tmout times st (C_NOTE_ON ||| (ch &&& 0x0F)) now = false →
        midi1_serial_note_on tmout times st now ch key vel
          = ({ st with running_status_tx_count :=
                         (st.running_status_tx_count + 1) % 256 },
             [key, vel]))) ∧
    (∀ tmout times st status now,
      midi1_need_status tmout times st status now = true ↔
        (u32sub now st.last_status_tx_time > tmout ∨
         status ≠ st.running_status_tx ∨
         times ≤ st.running_status_tx_count)) ∧
    c7_note_on_status_flags = true :: (List.replicate 15 false ++ [true]) := by
  refine ⟨?_, ?_, by rfl⟩
  · intro tmout times st now ch key vel hk hv
    have h : ¬ (key > 127 ∨ vel > 127) := by omega
    constructor <;> intro hns <;>
      simp [midi1_serial_note_on, midi1_serial_send_channel_voice, h, hns]
  · intro tmout times st status now
    simp only [midi1_need_status, Bool.or_eq_true, decide_eq_true_eq]
    tauto

/-- Witness for `c7_running_status_elision` at a concrete in-range call on
which the status byte is required. -/
theorem c7_witness :
    ((60 : Nat) ≤ 127 ∧ (100 : Nat) ≤ 127 ∧
      (midi1_need_status 300 16 (midi1_serial_init 1000) (C_NOTE_ON ||| 0) 1000 = true →
        midi1_serial_note_on 300 16 (midi1_serial_init 1000) 1000 0 60 100
          = ({ midi1_serial_init 1000 with
                running_status_tx := C_NOTE_ON ||| 0,
                running_status_tx_count := 1,
                last_status_tx_time := 1000 },
             [C_NOTE_ON ||| 0, 60, 100]))) ∧
    (midi1_need_status 300 16 (midi1_serial_init 1000) (C_NOTE_ON ||| 0) 1000 = true ↔
      (u32sub 1000 (midi1_serial_init 1000).last_status_tx_time > 300 ∨
       C_NOTE_ON ||| 0 ≠ (midi1_serial_init 1000).running_status_tx ∨
       16 ≤ (midi1_serial_init 1000).running_status_tx_count)) := by
  refine ⟨⟨by decide, by decide, ?_⟩, ?_⟩
  · exact fun h =>
      ((c7_running_status_elision.1 300 16 (midi1_serial_init 1000) 1000 0 60 100
        (by decide) (by decide)).1 h)
  · exact c7_running_status_elision.2.1 300 16 (midi1_serial_init 1000)
      (C_NOTE_ON ||| 0) 1000

/-! ## List helper lemmas -/

/-- Setting the slot right after a prefix of known length. -/
lemma set_at_append (pre : List Nat) (y v : Nat) (l : List Nat) :
    (pre ++ y :: l).set pre.length v = pre ++ v :: l := by
  induction pre with
  | nil => rfl
  | cons a t ih => simp [ih]

/-- `u32sub` is plain subtraction below the modulus. -/
lemma u32sub_eq {a b : Nat} (hb : b ≤ a) (ha : a < U32) : u32sub a b = a - b := by
  simp only [u32sub, U32] at *
  omega

/-! ## Claim C9 -/

/-- State of the block averager after `n ≤ 48` insertions of the constant
sample `v` (no 32-bit overflow): the first `n` slots hold `v`, the running
sum is exact, and the ring is still in its filling phase. -/
lemma blockavg_fill (v : Nat) (hv : 48 * v < U32) :
    ∀ n, n ≤ 48 →
      (fun b => midi1_blockavg_add b v)^[n] midi1_blockavg_init
        = { buf := List.replicate n v ++ List.replicate (48 - n) 0,
            sum := n * v, index := 0, count := n } := by
  intro n
  induction n with
  | zero =>
    intro _
    simp [midi1_blockavg_init, MIDI1_BLOCKAVG_SIZE]
  | succ k ih =>
    intro hk
    have hk48 : k < 48 := by omega
    rw [Function.iterate_succ_apply', ih (by omega)]
    have hcnt : k < MIDI1_BLOCKAVG_SIZE := hk48
    have hrep : List.replicate (48 - k) (0 : Nat)
        = 0 :: List.replicate (48 - (k + 1)) 0 := by
      have h : 48 - k = (48 - (k + 1)) + 1 := by omega
      rw [h, List.replicate_succ]
    have hlen : (List.replicate k v).length = k := List.length_replicate k v
    have hset := set_at_append (List.replicate k v) 0 v (List.replicate (48 - (k + 1)) 0)
    rw [hlen] at hset
    have hbuf : (List.replicate k v ++ List.replicate (48 - k) 0).set k v
        = List.replicate (k + 1) v ++ List.replicate (48 - (k + 1)) 0 := by
      rw [hrep, hset, List.replicate_succ' k v]
      simp
    have hsum : u32 (k * v + v) = (k + 1) * v := by
      have h1 : (k + 1) * v = k * v + v := by ring
      have h2 : (k + 1) * v ≤ 48 * v := Nat.mul_le_mul_right v (by omega)
      simp only [u32, U32] at *
      omega
    simp [midi1_blockavg_add, hcnt, hbuf, hsum]

/-- Claim C9: 48 insertions of `v` fill the window, giving `average = v`
and `count = 48`; a 49th insertion of `w` evicts exactly the oldest slot
(slot 0, whose sample was `v`), leaving the buffer `w` followed by 47 copies
of `v`, `average = (47*v + w) / 48` (truncating) and `count = 48`. -/
theorem c9_blockavg_window (v w : Nat) (h48 : 48 * v < U32) (h47 : 47 * v + w < U32) :
    midi1_blockavg_average ((fun b => midi1_blockavg_add b v)^[48] midi1_blockavg_init) = v ∧
    midi1_blockavg_count ((fun b => midi1_blockavg_add b v)^[48] midi1_blockavg_init) = 48 ∧
    (midi1_blockavg_add ((fun b => midi1_blockavg_add b v)^[48] midi1_blockavg_init) w).buf
      = w :: List.replicate 47 v ∧
    midi1_blockavg_average
        (midi1_blockavg_add ((fun b => midi1_blockavg_add b v)^[48] midi1_blockavg_init) w)
      = (47 * v + w) / 48 ∧
    midi1_blockavg_count
        (midi1_blockavg_add ((fun b => midi1_blockavg_add b v)^[48] midi1_blockavg_init) w)
      = 48 := by
  have hfull := blockavg_fill v h48 48 (by omega)
  have hbuf48 : List.replicate 48 v ++ List.replicate (48 - 48) (0 : Nat)
      = List.replicate 48 v := by simp
  rw [hbuf48] at hfull
  have hv : v ≤ 48 * v := by omega
  have havg : midi1_blockavg_average
      ((fun b => midi1_blockavg_add b v)^[48] midi1_blockavg_init) = v := by
    rw [hfull]
    simp only [midi1_blockavg_average]
    rw [if_neg (by norm_num)]
    omega
  have hgetD : (List.replicate 48 v).getD 0 0 = v := by
    rw [show (48 : Nat) = 47 + 1 from rfl, List.replicate_succ]
    rfl
  have hset : (List.replicate 48 v).set 0 w = w :: List.replicate 47 v := by
    rw [show (48 : Nat) = 47 + 1 from rfl, List.replicate_succ]
    rfl
  have hsub : u32sub (48 * v) v = 47 * v := by
    rw [u32sub_eq (by omega) h48]
    omega
  have hsum : u32 (u32sub (48 * v) v + w) = 47 * v + w := by
    rw [hsub]
    simp only [u32, U32] at *
    omega
  have hadd : midi1_blockavg_add
      ((fun b => midi1_blockavg_add b v)^[48] midi1_blockavg_init) w
        = { buf := w :: List.replicate 47 v, sum := 47 * v + w, index := 1,
            count := 48 } := by
    rw [hfull]
    simp [midi1_blockavg_add, MIDI1_BLOCKAVG_SIZE, hgetD, hset, hsum]
  refine ⟨havg, by rw [hfull]; rfl, by rw [hadd], by rw [hadd]; rfl, by rw [hadd]; rfl⟩

/-- Witness for `c9_blockavg_window` with samples `v = 100`, `w = 148`. -/
theorem c9_witness :
    48 * 100 < U32 ∧ 47 * 100 + 148 < U32 ∧
    midi1_blockavg_average
        ((fun b => midi1_blockavg_add b 100)^[48] midi1_blockavg_init) = 100 ∧
    midi1_blockavg_average
        (midi1_blockavg_add
          ((fun b => midi1_blockavg_add b 100)^[48] midi1_blockavg_init) 148)
      = (47 * 100 + 148) / 48 := by
  have h := c9_blockavg_window 100 148 (by decide) (by decide)
  exact ⟨by decide, by decide, h.1, h.2.2.2.1⟩

/-! ## Claim C10 -/

/-- Overwriting slot `n` and taking one more element than `n`. -/
lemma take_succ_set (l : List Nat) : ∀ (n : Nat), n < l.length → ∀ (a : Nat),
    (l.set n a).take (n + 1) = l.take n ++ [a] := by
  induction l with
  | nil => intro n h; simp at h
  | cons x t ih =>
    intro n h a
    cases n with
    | zero => simp
    | succ m =>
      have hm : m < t.length := by simpa using h
      show x :: (t.set m a).take (m + 1) = x :: (t.take m ++ [a])
      rw [ih m hm a]

/-- Overwriting one slot exchanges its old value for the new one in the sum. -/
lemma sum_set_getD (l : List Nat) : ∀ (n : Nat), n < l.length → ∀ (a : Nat),
    (l.set n a).sum + l.getD n 0 = l.sum + a := by
  induction l with
  | nil => intro n h; simp at h
  | cons x t ih =>
    intro n h a
    cases n with
    | zero => simp; omega
    | succ m =>
      have hm : m < t.length := by simpa using h
      have hrec := ih m hm a
      simp only [List.set_cons_succ, List.sum_cons, List.getD_cons_succ]
      omega

/-- Any slot is bounded by the list sum. -/
lemma getD_le_sum (l : List Nat) : ∀ (n : Nat), l.getD n 0 ≤ l.sum := by
  induction l with
  | nil => intro n; simp [List.getD]
  | cons x t ih =>
    intro n
    cases n with
    | zero => simp
    | succ m =>
      have hrec := ih m
      simp only [List.getD_cons_succ, List.sum_cons]
      omega

/-- A uniform lower bound on the entries bounds the sum from below. -/
lemma mul_length_le_sum (l : List Nat) (m : Nat) (h : ∀ x ∈ l, m ≤ x) :
    m * l.length ≤ l.sum := by
  induction l with
  | nil => simp
  | cons x t ih =>
    have hx := h x (by simp)
    have ht := ih (fun y hy => h y (by simp [hy]))
    simp only [List.length_cons, List.sum_cons, Nat.mul_succ]
    omega

/-- Invariant of the block averager inside the clock measurer: the ring has
its full capacity allocated, the write index is in range, every counted
sample converts to a non-zero number of microseconds at counter frequency
`freq` (that is, `freq ≤ s * 1000000`), and the `uint32_t` running sum is
the true sum of the counted samples reduced mod `2^32`. -/
def BInv (freq : Nat) (b : midi1_blockavg) : Prop :=
  b.buf.length = 48 ∧ b.count ≤ 48 ∧ b.index < 48 ∧
  (∀ s ∈ b.buf.take b.count, freq ≤ s * 1000000) ∧
  b.sum = (b.buf.take b.count).sum % U32

/-- Invariant of the clock measurer state. -/
def MeasInv (d : midi1_clock_meas_cntr_data) : Prop :=
  d.clock_freq ≠ 0 ∧ BInv d.clock_freq d.blockavg

/-- `midi1_blockavg_add` preserves the averager invariant for any sample
whose microsecond conversion is non-zero. -/
lemma BInv_add {freq : Nat} {b : midi1_blockavg} (hb : BInv freq b) {s : Nat}
    (hs : freq ≤ s * 1000000) : BInv freq (midi1_blockavg_add b s) := by
  obtain ⟨hlen, hcount, hidx, hall, hsum⟩ := hb
  by_cases hc : b.count < MIDI1_BLOCKAVG_SIZE
  · have hc48 : b.count < 48 := hc
    have hclen : b.count < b.buf.length := by omega
    have htake := take_succ_set b.buf b.count hclen s
    simp only [midi1_blockavg_add, if_pos hc]
    refine ⟨?_, ?_, ?_, ?_, ?_⟩
    · show (b.buf.set b.count s).length = 48
      simp [hlen]
    · show b.count + 1 ≤ 48
      omega
    · show b.index < 48
      exact hidx
    · show ∀ x ∈ (b.buf.set b.count s).take (b.count + 1), freq ≤ x * 1000000
      intro x hx
      rw [htake] at hx
      rcases List.mem_append.1 hx with hx1 | hx2
      · exact hall x hx1
      · rw [List.mem_singleton.1 hx2]; exact hs
    · show u32 (b.sum + s) = ((b.buf.set b.count s).take (b.count + 1)).sum % U32
      rw [htake, hsum]
      simp only [List.sum_append, List.sum_cons, List.sum_nil, u32, U32]
      omega
  · have hc48 : b.count = 48 := by
      have hge : MIDI1_BLOCKAVG_SIZE ≤ b.count := Nat.not_lt.1 hc
      have hge48 : 48 ≤ b.count := hge
      omega
    have hidxlen : b.index < b.buf.length := by omega
    have htake : b.buf.take b.count = b.buf := by
      rw [hc48, ← hlen, List.take_length]
    have htake2 : (b.buf.set b.index s).take b.count = b.buf.set b.index s := by
      have hl2 : (b.buf.set b.index s).length = 48 := by simp [hlen]
      rw [hc48, ← hl2, List.take_length]
    simp only [midi1_blockavg_add, if_neg hc]
    refine ⟨?_, ?_, ?_, ?_, ?_⟩
    · show (b.buf.set b.index s).length = 48
      simp [hlen]
    · show b.count ≤ 48
      exact hcount
    · show (if b.index + 1 ≥ MIDI1_BLOCKAVG_SIZE then 0 else b.index + 1) < 48
      have h48 : MIDI1_BLOCKAVG_SIZE = 48 := rfl
      split <;> omega
    · show ∀ x ∈ (b.buf.set b.index s).take b.count, freq ≤ x * 1000000
      intro x hx
      rw [htake2] at hx
      rcases List.mem_or_eq_of_mem_set hx with hx1 | hx2
      · exact hall x (by rw [htake]; exact hx1)
      · rw [hx2]; exact hs
    · show u32 (u32sub b.sum (b.buf.getD b.index 0) + s)
        = ((b.buf.set b.index s).take b.count).sum % U32
      rw [htake2]
      have hset := sum_set_getD b.buf b.index hidxlen s
      have hold := getD_le_sum b.buf b.index
      rw [hsum, htake]
      simp only [u32, u32sub, U32]
      omega

/-- `midi1_clock_meas_cntr_pulse`, written as one flat case split (the
record updates of the source collapsed). -/
lemma pulse_eq (d : midi1_clock_meas_cntr_data) (now : Nat) :
    midi1_clock_meas_cntr_pulse d now =
      if d.last_ts_ticks = 0 then
        { d with last_tick_timestamp_ticks := now, last_ts_ticks := now }
      else if midi1_clock_meas_interval d now = 0 then
        { d with last_tick_timestamp_ticks := now, last_ts_ticks := now }
      else if counter_ticks_to_us (midi1_clock_meas_interval d now) d.clock_freq = 0 then
        { d with last_tick_timestamp_ticks := now, last_ts_ticks := now,
                 last_interval_ticks := midi1_clock_meas_interval d now }
      else if midi1_blockavg_count
          (midi1_blockavg_add d.blockavg (midi1_clock_meas_interval d now))
          = MIDI1_BLOCKAVG_SIZE then
        { d with last_tick_timestamp_ticks := now, last_ts_ticks := now,
                 last_interval_ticks := midi1_clock_meas_interval d now,
                 blockavg := midi1_blockavg_add d.blockavg (midi1_clock_meas_interval d now),
                 scaled_bpm := u32 (MIDI1_SCALED_BPM_NUMERATOR /
                   counter_ticks_to_us
                     (midi1_blockavg_average
                       (midi1_blockavg_add d.blockavg (midi1_clock_meas_interval d now)))
                     d.clock_freq),
                 valid := true }
      else
        { d with last_tick_timestamp_ticks := now, last_ts_ticks := now,
                 last_interval_ticks := midi1_clock_meas_interval d now,
                 blockavg := midi1_blockavg_add d.blockavg (midi1_clock_meas_interval d now) } := by
  rfl

/-- A fresh measurer satisfies the invariant. -/
lemma meas_init_inv (t0 freq : Nat) (cu : Bool) (d : midi1_clock_meas_cntr_data)
    (h : midi1_clock_meas_cntr_init t0 freq cu = some d) : MeasInv d := by
  by_cases hf : freq = 0
  · simp [midi1_clock_meas_cntr_init, hf] at h
  · simp only [midi1_clock_meas_cntr_init, if_neg hf, Option.some_inj] at h
    subst h
    exact ⟨hf, by simp [BInv, midi1_blockavg_init, MIDI1_BLOCKAVG_SIZE, U32]⟩

/-- Every pulse preserves the invariant: a sample enters the averager only
after its own microsecond conversion was checked to be non-zero. -/
lemma meas_pulse_inv (d : midi1_clock_meas_cntr_data) (now : Nat)
    (hinv : MeasInv d) : MeasInv (midi1_clock_meas_cntr_pulse d now) := by
  rw [pulse_eq]
  by_cases h1 : d.last_ts_ticks = 0
  · simp only [if_pos h1]; exact hinv
  · simp only [if_neg h1]
    by_cases h2 : midi1_clock_meas_interval d now = 0
    · simp only [if_pos h2]; exact hinv
    · simp only [if_neg h2]
      by_cases h3 : counter_ticks_to_us (midi1_clock_meas_interval d now) d.clock_freq = 0
      · simp only [if_pos h3]; exact hinv
      · simp only [if_neg h3]
        have hfreq : d.clock_freq ≠ 0 := hinv.1
        have hs6 : d.clock_freq ≤ midi1_clock_meas_interval d now * 1000000 := by
          by_contra hlt
          exact h3 ((Nat.div_eq_zero_iff (Nat.pos_of_ne_zero hfreq)).2 (by omega))
        have hBI := BInv_add hinv.2 hs6
        by_cases h4 : midi1_blockavg_count
            (midi1_blockavg_add d.blockavg (midi1_clock_meas_interval d now))
            = MIDI1_BLOCKAVG_SIZE
        · simp only [if_pos h4]; exact ⟨hfreq, hBI⟩
        · simp only [if_neg h4]; exact ⟨hfreq, hBI⟩

/-- From an invariant state, whenever the scaled-BPM division is reached
and the true (unwrapped) sum of the 48 buffered samples fits in 32 bits,
the divisor is non-zero. -/
lemma meas_divisor_pos (d : midi1_clock_meas_cntr_data) (now div : Nat)
    (hinv : MeasInv d)
    (hdiv : midi1_clock_meas_pulse_divisor d now = some div)
    (hofl : (midi1_blockavg_add d.blockavg (midi1_clock_meas_interval d now)).buf.sum < U32) :
    div ≠ 0 := by
  by_cases h1 : d.last_ts_ticks = 0
  · simp [midi1_clock_meas_pulse_divisor, h1] at hdiv
  by_cases h2 : midi1_clock_meas_interval d now = 0
  · simp [midi1_clock_meas_pulse_divisor, h1, h2] at hdiv
  by_cases h3 : counter_ticks_to_us (midi1_clock_meas_interval d now) d.clock_freq = 0
  · simp [midi1_clock_meas_pulse_divisor, h1, h2, h3] at hdiv
  by_cases h4 : midi1_blockavg_count
      (midi1_blockavg_add d.blockavg (midi1_clock_meas_interval d now))
      = MIDI1_BLOCKAVG_SIZE
  case neg =>
    simp [midi1_clock_meas_pulse_divisor, h1, h2, h3, h4] at hdiv
  case pos =>
  have hdiv2 : counter_ticks_to_us
      (midi1_blockavg_average
        (midi1_blockavg_add d.blockavg (midi1_clock_meas_interval d now)))
      d.clock_freq = div := by
    simp [midi1_clock_meas_pulse_divisor, h1, h2, h3, h4] at hdiv
    exact hdiv
  have hfreq : d.clock_freq ≠ 0 := hinv.1
  have hpos : 0 < d.clock_freq := Nat.pos_of_ne_zero hfreq
  have hs6 : d.clock_freq ≤ midi1_clock_meas_interval d now * 1000000 := by
    by_contra hlt
    exact h3 ((Nat.div_eq_zero_iff hpos).2 (by omega))
  obtain ⟨hlen, hcount, hidx, hall, hsumf⟩ := BInv_add hinv.2 hs6
  have hcnt48 : (midi1_blockavg_add d.blockavg (midi1_clock_meas_interval d now)).count
      = 48 := h4
  have htake : (midi1_blockavg_add d.blockavg (midi1_clock_meas_interval d now)).buf.take
        (midi1_blockavg_add d.blockavg (midi1_clock_meas_interval d now)).count
      = (midi1_blockavg_add d.blockavg (midi1_clock_meas_interval d now)).buf := by
    rw [hcnt48, ← hlen, List.take_length]
  rw [htake] at hall hsumf
  have hsum_exact : (midi1_blockavg_add d.blockavg (midi1_clock_meas_interval d now)).sum
      = (midi1_blockavg_add d.blockavg (midi1_clock_meas_interval d now)).buf.sum := by
    rw [hsumf, Nat.mod_eq_of_lt hofl]
  have havg : midi1_blockavg_average
      (midi1_blockavg_add d.blockavg (midi1_clock_meas_interval d now))
      = (midi1_blockavg_add d.blockavg (midi1_clock_meas_interval d now)).buf.sum / 48 := by
    simp only [midi1_blockavg_average, hcnt48, hsum_exact]
    rw [if_neg (by norm_num)]
  have hm0 : ∀ x ∈ (midi1_blockavg_add d.blockavg (midi1_clock_meas_interval d now)).buf,
      (d.clock_freq + 999999) / 1000000 ≤ x := by
    intro x hx
    have hb := hall x hx
    omega
  have hsum_ge := mul_length_le_sum
    (midi1_blockavg_add d.blockavg (midi1_clock_meas_interval d now)).buf
    ((d.clock_freq + 999999) / 1000000) hm0
  rw [hlen] at hsum_ge
  have havg_ge : (d.clock_freq + 999999) / 1000000
      ≤ (midi1_blockavg_add d.blockavg (midi1_clock_meas_interval d now)).buf.sum / 48 :=
    (Nat.le_div_iff_mul_le (by norm_num)).2 (by omega)
  have hfloor : d.clock_freq ≤ ((d.clock_freq + 999999) / 1000000) * 1000000 := by
    omega
  have hfin : d.clock_freq
      ≤ ((midi1_blockavg_add d.blockavg (midi1_clock_meas_interval d now)).buf.sum / 48)
         * 1000000 :=
    le_trans hfloor (Nat.mul_le_mul_right 1000000 havg_ge)
  have hone : 1 ≤ div := by
    rw [← hdiv2, havg]
    exact (Nat.one_le_div_iff hpos).2 hfin
  omega

/-- Claim C10 (amended): from initialization through any pulse sequence the
measurer keeps the invariant that every buffered sample has a non-zero
microsecond conversion, and whenever the scaled-BPM division is reached the
divisor is non-zero **provided** the true sum of the 48 buffered samples
fits in 32 bits; when that sum wraps the `uint32_t` accumulator, the
averaged value can collapse to zero and the unguarded division divides by
zero (see the counterexample). -/
theorem c10_divisor_amended :
    (∀ (t0 freq : Nat) (cu : Bool) (d : midi1_clock_meas_cntr_data),
      midi1_clock_meas_cntr_init t0 freq cu = some d → MeasInv d) ∧
    (∀ (d : midi1_clock_meas_cntr_data) (now : Nat),
      MeasInv d → MeasInv (midi1_clock_meas_cntr_pulse d now)) ∧
    (∀ (d : midi1_clock_meas_cntr_data) (now div : Nat),
      MeasInv d →
      midi1_clock_meas_pulse_divisor d now = some div →
      (midi1_blockavg_add d.blockavg (midi1_clock_meas_interval d now)).buf.sum < U32 →
      div ≠ 0) :=
  ⟨meas_init_inv, meas_pulse_inv, meas_divisor_pos⟩

/-- The measurer state right after `midi1_clock_meas_cntr_init` with counter
reading 1, frequency 1 MHz, up-counter. -/
def c10_init_state : midi1_clock_meas_cntr_data :=
  { last_ts_ticks := 1, scaled_bpm := 12000, last_interval_ticks := 0,
    valid := false, clock_freq := 1000000, count_up := true,
    last_tick_timestamp_ticks := 0, blockavg := midi1_blockavg_init }

/-- 47 pulses of uniform interval 89478486 ticks (each individually
accepted: its microsecond conversion is 89478486), whose upcoming 48th
sample makes the true window sum `48 * 89478486 = 2^32 + 32` overflow. -/
def c10_wrap_state : midi1_clock_meas_cntr_data :=
  (List.range 47).foldl
    (fun d i => midi1_clock_meas_cntr_pulse d ((1 + (i + 1) * 89478486) % U32))
    c10_init_state

set_option maxRecDepth 100000 in
/-- Claim C10 (counterexample): after 47 accepted pulses of 89478486 ticks
each, the 48th pulse reaches the scaled-BPM division with divisor 0: the
`uint32_t` sum wrapped to 32, the average truncates to 0, and its
microsecond conversion is 0 - even though every individual buffered sample
has a non-zero microsecond conversion (the state satisfies `MeasInv`). -/
theorem c10_counterexample :
    midi1_clock_meas_cntr_init 1 1000000 true = some c10_init_state ∧
    MeasInv c10_wrap_state ∧
    midi1_clock_meas_pulse_divisor c10_wrap_state ((1 + 48 * 89478486) % U32)
      = some 0 := by
  refine ⟨rfl, ?_, by decide⟩
  unfold MeasInv BInv
  decide

/-- 47 pulses of uniform interval 20833 ticks (roughly 120 BPM at 1 MHz),
whose 48th pulse reaches the division without overflow. -/
def c10_good_state : midi1_clock_meas_cntr_data :=
  (List.range 47).foldl
    (fun d i => midi1_clock_meas_cntr_pulse d (1 + (i + 1) * 20833))
    c10_init_state

set_option maxRecDepth 100000 in
/-- Witness for `c10_divisor_amended`: all three parts applied at concrete
states; the no-overflow run reaches the division with divisor 20833. -/
theorem c10_witness :
    midi1_clock_meas_cntr_init 1 1000000 true = some c10_init_state ∧
    MeasInv c10_init_state ∧
    MeasInv (midi1_clock_meas_cntr_pulse c10_init_state 20834) ∧
    midi1_clock_meas_pulse_divisor c10_good_state (1 + 48 * 20833) = some 20833 ∧
    (midi1_blockavg_add c10_good_state.blockavg
        (midi1_clock_meas_interval c10_good_state (1 + 48 * 20833))).buf.sum < U32 ∧
    (20833 : Nat) ≠ 0 := by
  have h1 : midi1_clock_meas_cntr_init 1 1000000 true = some c10_init_state := rfl
  have hi := c10_divisor_amended.1 1 1000000 true c10_init_state h1
  have hp := c10_divisor_amended.2.1 c10_init_state 20834 hi
  have hgood : MeasInv c10_good_state := by
    unfold MeasInv BInv
    decide
  have hdiv : midi1_clock_meas_pulse_divisor c10_good_state (1 + 48 * 20833)
      = some 20833 := by decide
  have hofl : (midi1_blockavg_add c10_good_state.blockavg
      (midi1_clock_meas_interval c10_good_state (1 + 48 * 20833))).buf.sum < U32 := by
    decide
  have hne := c10_divisor_amended.2.2 c10_good_state (1 + 48 * 20833) 20833
    hgood hdiv hofl
  exact ⟨h1, hi, hp, hdiv, hofl, hne⟩

end Midi1
